import Mathlib

/-!
Shallow embedding of the interaction core of `src/Inkguiding.py` (class
`OverlayCanvas` and the guide-loading part of `MainWindow._load_settings`).

The mutable widget state (`_guides`, `_hover_idx`, `_positioning_idx`,
`_interactive`) is modelled as an explicit record `CanvasState`; each Qt
event handler and each mutator method becomes a pure state-transition
function.  Pixel coordinates are Python ints, modelled as `Int`; list
indices held in the interaction state are produced by `enumerate` and by
decrements guarded to stay nonnegative, so they are modelled as
`Option Nat`, while the `index` argument of `removeGuideAt` is a raw `Int`
exactly as in the source.
-/

namespace Inkguiding

/-- Guide orientation: the source stores the strings `'v'` / `'h'`; every
construction site uses exactly these two values. -/
inductive Orientation where
  | v
  | h
deriving DecidableEq, Repr

/-- The `Guide` dataclass (`src/Inkguiding.py` lines 57-63), with the same
field defaults. -/
structure Guide where
  orientation : Orientation
  pos : Int
  color : Int × Int × Int × Int := (255, 140, 0, 255)
  thickness : Int := 2
  style_name : String := "Solid"
deriving DecidableEq, Repr

/-- A pointer coordinate (`QPoint`): `e.x()` / `e.y()`. -/
structure Point where
  x : Int
  y : Int
deriving DecidableEq, Repr

/-- `GUIDE_HIT_RADIUS = 15` (line 28). -/
def GUIDE_HIT_RADIUS : Int := 15

/-- `GUIDE_DRAG_RADIUS = 20` (line 29). -/
def GUIDE_DRAG_RADIUS : Int := 20

/-- The mutable state of `OverlayCanvas` (lines 120-123). -/
structure CanvasState where
  guides : List Guide
  hover_idx : Option Nat
  positioning_idx : Option Nat
  interactive : Bool
deriving DecidableEq, Repr

/-- The state set up by `OverlayCanvas.__init__` (lines 120-123). -/
def initState : CanvasState :=
  { guides := [], hover_idx := none, positioning_idx := none, interactive := false }

/-- `OverlayCanvas.setInteractive` (lines 125-132); the window-attribute and
repaint calls are rendering-side effects with no bearing on this state. -/
def setInteractive (enabled : Bool) (s : CanvasState) : CanvasState :=
  if enabled then
    { s with interactive := true }
  else
    { s with interactive := false, positioning_idx := none, hover_idx := none }

/-- `OverlayCanvas.addGuide` (lines 134-137): append to `_guides`. -/
def addGuide (g : Guide) (s : CanvasState) : CanvasState :=
  { s with guides := s.guides ++ [g] }

/-- The index-fixing rule applied to each interaction index inside
`removeGuideAt` (lines 143-158): equal to the removed index → cleared;
greater → decremented; smaller or absent → unchanged.  The source repeats
this block verbatim for `_positioning_idx` and `_hover_idx`. -/
def adjustIdx (o : Option Nat) (removed : Nat) : Option Nat :=
  match o with
  | none => none
  | some k => if k = removed then none else if k > removed then some (k - 1) else some k

/-- `OverlayCanvas.removeGuideAt` (lines 139-161): guarded deletion with
re-derivation of both interaction indices; outside the guard the method
does nothing (it does not raise). -/
def removeGuideAt (index : Int) (s : CanvasState) : CanvasState :=
  if 0 ≤ index ∧ index < s.guides.length then
    let i : Nat := index.toNat
    { s with guides := s.guides.eraseIdx i,
             positioning_idx := adjustIdx s.positioning_idx i,
             hover_idx := adjustIdx s.hover_idx i }
  else
    s

/-- The error taxonomy of the spec, for stating claims about failure
behaviour. -/
inductive GuideError where
  | indexOutOfRange
deriving DecidableEq, Repr

/-- `OverlayCanvas.removeGuideAt` embedded into `Except` to expose the error
channel: the source guards the index with `if 0 <= index < len(self._guides)`
and has no raise path, so every call returns `.ok`. -/
def removeGuideAtE (index : Int) (s : CanvasState) : Except GuideError CanvasState :=
  Except.ok (removeGuideAt index s)

/-- `OverlayCanvas.clearGuides` (lines 163-170): no-op when already empty. -/
def clearGuides (s : CanvasState) : CanvasState :=
  if s.guides.isEmpty then s
  else { s with guides := [], positioning_idx := none, hover_idx := none }

/-- `OverlayCanvas.setGuides` (lines 175-180): wholesale replacement, both
interaction indices reset. -/
def setGuides (gs : List Guide) (s : CanvasState) : CanvasState :=
  { s with guides := gs, positioning_idx := none, hover_idx := none }

/-- The per-guide hit test inside `OverlayCanvas._findGuideAt` (lines
240-244): vertical guides compare `|pos.x - g.pos|`, horizontal guides
compare `|pos.y - g.pos|`, both against the chosen radius, inclusively. -/
def guideHit (p : Point) (radius : Int) (g : Guide) : Bool :=
  match g.orientation with
  | Orientation.v => decide (|p.x - g.pos| ≤ radius)
  | Orientation.h => decide (|p.y - g.pos| ≤ radius)

/-- The `for i, g in enumerate(self._guides)` loop of
`OverlayCanvas._findGuideAt`: first index whose guide is hit, else `None`. -/
def findGuideAtList (p : Point) (radius : Int) : List Guide → Option Nat
  | [] => none
  | g :: gs =>
    if guideHit p radius g then some 0
    else (findGuideAtList p radius gs).map (· + 1)

/-- `OverlayCanvas._findGuideAt` (lines 231-245). -/
def findGuideAt (s : CanvasState) (p : Point) (use_drag_radius : Bool) : Option Nat :=
  findGuideAtList p (if use_drag_radius then GUIDE_DRAG_RADIUS else GUIDE_HIT_RADIUS) s.guides

/-- Mouse buttons relevant to `mousePressEvent`. -/
inductive MouseButton where
  | left
  | right
  | middle
deriving DecidableEq, Repr

/-- `OverlayCanvas.mousePressEvent` (lines 247-278).  `shift` is whether
`Qt.ShiftModifier` is held.  `_last_mouse_pos` is written but never read
anywhere in the source, so it is not part of the state. -/
def mousePressEvent (button : MouseButton) (shift : Bool) (p : Point)
    (s : CanvasState) : CanvasState :=
  if !s.interactive then s
  else
    match button with
    | MouseButton.left =>
      let idx := findGuideAt s p true
      match s.positioning_idx, idx with
      | none, some i => { s with positioning_idx := some i, hover_idx := some i }
      | some _, _ => { s with positioning_idx := none, hover_idx := none }
      | none, none => s
    | MouseButton.right =>
      match findGuideAt s p true with
      | some i =>
        let s1 := if s.positioning_idx = some i
                  then { s with positioning_idx := none } else s
        removeGuideAt (i : Int) s1
      | none => s
    | MouseButton.middle =>
      if shift then addGuide { orientation := Orientation.h, pos := p.y } s
      else addGuide { orientation := Orientation.v, pos := p.x } s

/-- The clamped position computed on lines 290-293:
`int(max(0, min(self.width() - 1, e.x())))` for vertical guides,
`int(max(0, min(self.height() - 1, e.y())))` for horizontal ones
(`int(...)` is the identity on ints). -/
def dragTarget (width height : Int) (p : Point) (g : Guide) : Int :=
  match g.orientation with
  | Orientation.v => max 0 (min (width - 1) p.x)
  | Orientation.h => max 0 (min (height - 1) p.y)

/-- `OverlayCanvas.mouseMoveEvent` (lines 280-306).  `width`/`height` are
the widget extents `self.width()` / `self.height()`; the bounds guard
`self._positioning_idx < len(self._guides)` and the in-place `g.pos = ...`
assignment become the `get?`/`set` pair. -/
def mouseMoveEvent (width height : Int) (p : Point) (s : CanvasState) : CanvasState :=
  if !s.interactive then s
  else
    match s.positioning_idx with
    | some i =>
      match s.guides.get? i with
      | some g =>
        { s with guides := s.guides.set i { g with pos := dragTarget width height p g } }
      | none =>
        { s with positioning_idx := none, hover_idx := none }
    | none =>
      let idx := findGuideAt s p false
      if idx ≠ s.hover_idx then { s with hover_idx := idx } else s

/-- `OverlayCanvas.mouseReleaseEvent` (lines 308-309): `pass`. -/
def mouseReleaseEvent (s : CanvasState) : CanvasState := s

/-- `OverlayCanvas.leaveEvent` (lines 311-318). -/
def leaveEvent (s : CanvasState) : CanvasState :=
  if !s.interactive then s
  else if s.positioning_idx = none ∧ s.hover_idx ≠ none then
    { s with hover_idx := none }
  else s

/-- Every operation that touches `CanvasState`, for stating properties of
arbitrary operation sequences. -/
inductive Op where
  | add (g : Guide)
  | remove (index : Int)
  | clear
  | setAll (gs : List Guide)
  | setInter (enabled : Bool)
  | press (button : MouseButton) (shift : Bool) (p : Point)
  | move (width height : Int) (p : Point)
  | release
  | leave
deriving DecidableEq, Repr

/-- Apply one operation. -/
def applyOp (op : Op) (s : CanvasState) : CanvasState :=
  match op with
  | Op.add g => addGuide g s
  | Op.remove index => removeGuideAt index s
  | Op.clear => clearGuides s
  | Op.setAll gs => setGuides gs s
  | Op.setInter b => setInteractive b s
  | Op.press b sh p => mousePressEvent b sh p s
  | Op.move w h p => mouseMoveEvent w h p s
  | Op.release => mouseReleaseEvent s
  | Op.leave => leaveEvent s

/-- Apply a sequence of operations in delivery order. -/
def applyOps (ops : List Op) (s : CanvasState) : CanvasState :=
  ops.foldl (fun t op => applyOp op t) s

/-- The ambient styling defaults resolved by the control panel
(`ControlPanel.getDefaults`, lines 422-427: current color, thickness
spin-box value, selected style name). -/
structure AmbientDefaults where
  color : Int × Int × Int × Int
  thickness : Int
  style : String
deriving DecidableEq, Repr

/-- One persisted guide record, a JSON object destructured by
`Guide(**item)` in `MainWindow._load_settings` (lines 588-592): each
dataclass field may be present or absent, and the object may carry keys
that are not `Guide` fields.  `Guide(**item)` raises `TypeError` exactly
when a required field (`orientation`, `pos`) is missing or an unknown key
is present; it performs no value validation beyond that. -/
structure PersistedEntry where
  orientation : Option Orientation
  pos : Option Int
  color : Option (Int × Int × Int × Int)
  thickness : Option Int
  style_name : Option String
  hasUnknownKey : Bool
deriving DecidableEq, Repr

/-- `Guide(**item)` for one persisted record: `some` guide (absent optional
fields filled with the dataclass defaults) when construction succeeds,
`none` when it raises (the `except Exception: pass` case). -/
def parseGuideEntry (e : PersistedEntry) : Option Guide :=
  if e.hasUnknownKey then none
  else
    match e.orientation, e.pos with
    | some o, some p =>
      some { orientation := o, pos := p,
             color := e.color.getD (255, 140, 0, 255),
             thickness := e.thickness.getD 2,
             style_name := e.style_name.getD "Solid" }
    | _, _ => none

/-- The guide-loading loop of `MainWindow._load_settings` (lines 586-592):
each record is parsed inside `try/except`, failures are skipped
individually. -/
def loadGuides (entries : List PersistedEntry) : List Guide :=
  entries.filterMap parseGuideEntry

/-- The spec's load-failure channel made explicit: the loop catches every
per-item exception, so loading the guide list always succeeds. -/
inductive LoadError where
  | loadFailure
deriving DecidableEq, Repr

/-- `loadGuides` embedded into `Except` to expose the failure channel:
the per-item `try/except` means the loop itself never raises. -/
def loadGuidesE (entries : List PersistedEntry) : Except LoadError (List Guide) :=
  Except.ok (loadGuides entries)

/-- An optional index is in range for a collection of length `n`. -/
def idxOk (o : Option Nat) (n : Nat) : Prop :=
  ∀ i, o = some i → i < n

/-- The no-dangling-index invariant: both interaction indices are `none` or
within the collection bounds. -/
def noDangling (s : CanvasState) : Prop :=
  idxOk s.positioning_idx s.guides.length ∧ idxOk s.hover_idx s.guides.length

/-- Non-interactive states carry no interaction indices. -/
def interOk (s : CanvasState) : Prop :=
  s.interactive = false → s.positioning_idx = none ∧ s.hover_idx = none

/-- While a drag is in progress the hover index tracks the positioning
index. -/
def linked (s : CanvasState) : Prop :=
  ∀ i, s.positioning_idx = some i → s.hover_idx = some i

/-- A single vertical guide at x = 100 with the dataclass defaults. -/
def vguide100 : Guide := { orientation := Orientation.v, pos := 100 }

/-- Interactive canvas, one vertical guide at x = 100, no drag in
progress. -/
def sampleIdle : CanvasState :=
  { guides := [vguide100], hover_idx := none, positioning_idx := none, interactive := true }

/-- Interactive canvas, one vertical guide at x = 100, guide 0 being
dragged. -/
def sampleDragging : CanvasState :=
  { guides := [vguide100], hover_idx := some 0, positioning_idx := some 0, interactive := true }

/-- Interactive canvas with three guides, hovering guide 0 and dragging
guide 2. -/
def sampleThree : CanvasState :=
  { guides := [vguide100,
               { orientation := Orientation.h, pos := 50 },
               { orientation := Orientation.v, pos := 200 }],
    hover_idx := some 0, positioning_idx := some 2, interactive := true }

/-- Ambient defaults distinct from the `Guide` dataclass defaults in every
styling field. -/
def blueDefaults : AmbientDefaults :=
  { color := (0, 0, 255, 255), thickness := 5, style := "Dashed" }

/-- A fully-populated persisted record: parses to a guide. -/
def wellFormedEntry : PersistedEntry :=
  { orientation := some Orientation.v, pos := some 120,
    color := some (10, 20, 30, 255), thickness := some 3,
    style_name := some "Dashed", hasUnknownKey := false }

/-- A persisted record missing the required `pos` field: `Guide(**item)`
raises on it, so it is skipped. -/
def malformedEntry : PersistedEntry :=
  { orientation := some Orientation.h, pos := none,
    color := none, thickness := none, style_name := none, hasUnknownKey := false }

theorem findGuideAtList_some_lt (p : Point) (radius : Int) (gs : List Guide) :
    ∀ i : Nat, findGuideAtList p radius gs = some i → i < gs.length := by
  induction gs with
  | nil => intro i h; simp [findGuideAtList] at h
  | cons g gs ih =>
    intro i h
    rw [findGuideAtList] at h
    split at h
    · cases h; simp
    · rw [Option.map_eq_some'] at h
      obtain ⟨j, hj, hji⟩ := h
      have hlt := ih j hj
      simp only [List.length_cons]
      omega

theorem findGuideAtList_eq_some_iff (p : Point) (radius : Int) (gs : List Guide) :
    ∀ i : Nat, findGuideAtList p radius gs = some i ↔
      ((∃ g, gs.get? i = some g ∧ guideHit p radius g = true) ∧
       ∀ j g', j < i → gs.get? j = some g' → guideHit p radius g' = false) := by
  induction gs with
  | nil => intro i; simp [findGuideAtList]
  | cons g gs ih =>
    intro i
    rw [findGuideAtList]
    by_cases hgh : guideHit p radius g = true
    · rw [if_pos hgh]
      cases i with
      | zero =>
        constructor
        · intro _
          exact ⟨⟨g, rfl, hgh⟩, by intro j g' hj _; omega⟩
        · intro _; rfl
      | succ k =>
        constructor
        · intro h; simp at h
        · rintro ⟨-, hall⟩
          have h0 := hall 0 g (by omega) rfl
          rw [hgh] at h0
          cases h0
    · have hgf : guideHit p radius g = false := by
        cases hq : guideHit p radius g
        · rfl
        · exact absurd hq hgh
      rw [if_neg hgh]
      cases i with
      | zero =>
        constructor
        · intro h
          rw [Option.map_eq_some'] at h
          obtain ⟨j, -, hji⟩ := h
          omega
        · rintro ⟨⟨g', hget, hhit⟩, -⟩
          simp only [List.get?_cons_zero, Option.some.injEq] at hget
          subst hget
          exact absurd hhit hgh
      | succ k =>
        constructor
        · intro h
          rw [Option.map_eq_some'] at h
          obtain ⟨j, hj, hji⟩ := h
          have hjk : k = j := by omega
          subst hjk
          obtain ⟨⟨g', hget, hhit⟩, hall⟩ := (ih k).mp hj
          refine ⟨⟨g', by simpa using hget, hhit⟩, ?_⟩
          intro j g'' hjk hget'
          cases j with
          | zero =>
            simp only [List.get?_cons_zero, Option.some.injEq] at hget'
            subst hget'
            exact hgf
          | succ j' =>
            exact hall j' g'' (by omega) (by simpa using hget')
        · rintro ⟨⟨g', hget, hhit⟩, hall⟩
          rw [Option.map_eq_some']
          refine ⟨k, (ih k).mpr ⟨⟨g', by simpa using hget, hhit⟩, ?_⟩, rfl⟩
          intro j g'' hjk hget'
          exact hall (j + 1) g'' (by omega) (by simpa using hget')

theorem findGuideAtList_eq_none_iff (p : Point) (radius : Int) (gs : List Guide) :
    findGuideAtList p radius gs = none ↔
      ∀ j g', gs.get? j = some g' → guideHit p radius g' = false := by
  induction gs with
  | nil => simp [findGuideAtList]
  | cons g gs ih =>
    rw [findGuideAtList]
    by_cases hgh : guideHit p radius g = true
    · rw [if_pos hgh]
      constructor
      · intro h; cases h
      · intro hall
        have h0 := hall 0 g rfl
        rw [hgh] at h0
        cases h0
    · have hgf : guideHit p radius g = false := by
        cases hq : guideHit p radius g
        · rfl
        · exact absurd hq hgh
      rw [if_neg hgh, Option.map_eq_none']
      rw [ih]
      constructor
      · intro hall j g' hget
        cases j with
        | zero =>
          simp only [List.get?_cons_zero, Option.some.injEq] at hget
          subst hget
          exact hgf
        | succ j' => exact hall j' g' (by simpa using hget)
      · intro hall j g' hget
        exact hall (j + 1) g' (by simpa using hget)

/-- C7: for every pointer coordinate, radius and guide list, the hit test
accepts a guide exactly when the pointer's perpendicular distance to it is
at most the radius (inclusive boundary: distance = radius hits, distance =
radius + 1 does not), and `_findGuideAt`'s loop returns the lowest hit
index, or `None` when no guide is hit. -/
theorem hit_test_spec (p : Point) (radius : Int) (gs : List Guide) :
    (∀ g, guideHit p radius g = true ↔
        ((g.orientation = Orientation.v ∧ |p.x - g.pos| ≤ radius) ∨
         (g.orientation = Orientation.h ∧ |p.y - g.pos| ≤ radius))) ∧
    (∀ g, (g.orientation = Orientation.v → |p.x - g.pos| = radius →
             guideHit p radius g = true) ∧
          (g.orientation = Orientation.v → |p.x - g.pos| = radius + 1 →
             guideHit p radius g = false) ∧
          (g.orientation = Orientation.h → |p.y - g.pos| = radius →
             guideHit p radius g = true) ∧
          (g.orientation = Orientation.h → |p.y - g.pos| = radius + 1 →
             guideHit p radius g = false)) ∧
    (∀ i : Nat, findGuideAtList p radius gs = some i ↔
        ((∃ g, gs.get? i = some g ∧ guideHit p radius g = true) ∧
         ∀ j g', j < i → gs.get? j = some g' → guideHit p radius g' = false)) ∧
    (findGuideAtList p radius gs = none ↔
        ∀ j g', gs.get? j = some g' → guideHit p radius g' = false) := by
  have hchar : ∀ g, guideHit p radius g = true ↔
      ((g.orientation = Orientation.v ∧ |p.x - g.pos| ≤ radius) ∨
       (g.orientation = Orientation.h ∧ |p.y - g.pos| ≤ radius)) := by
    intro g
    cases horient : g.orientation with
    | v => simp [guideHit, horient]
    | h => simp [guideHit, horient]
  refine ⟨hchar, ?_, findGuideAtList_eq_some_iff p radius gs,
      findGuideAtList_eq_none_iff p radius gs⟩
  intro g
  refine ⟨?_, ?_, ?_, ?_⟩
  · intro ho hd
    exact (hchar g).mpr (Or.inl ⟨ho, by omega⟩)
  · intro ho hd
    rw [← Bool.not_eq_true]
    intro hhit
    rcases (hchar g).mp hhit with ⟨-, hle⟩ | ⟨hh, -⟩
    · omega
    · rw [ho] at hh; cases hh
  · intro ho hd
    exact (hchar g).mpr (Or.inr ⟨ho, by omega⟩)
  · intro ho hd
    rw [← Bool.not_eq_true]
    intro hhit
    rcases (hchar g).mp hhit with ⟨hv, -⟩ | ⟨-, hle⟩
    · rw [ho] at hv; cases hv
    · omega

/-- Witness for C7: with one vertical guide at x = 100 and radius 20, the
hit test at x = 105 returns index 0, at x = 120 (distance exactly 20) it
still hits, and at x = 121 it returns `None`. -/
theorem hit_test_spec_witness :
    findGuideAtList ⟨105, 0⟩ 20 [vguide100] = some 0 ∧
    findGuideAtList ⟨120, 0⟩ 20 [vguide100] = some 0 ∧
    findGuideAtList ⟨121, 0⟩ 20 [vguide100] = none := by
  refine ⟨?_, ?_, ?_⟩
  · exact ((hit_test_spec ⟨105, 0⟩ 20 [vguide100]).2.2.1 0).mpr
      ⟨⟨vguide100, rfl, by decide⟩, by intro j g' hj _; omega⟩
  · exact ((hit_test_spec ⟨120, 0⟩ 20 [vguide100]).2.2.1 0).mpr
      ⟨⟨vguide100, rfl, by decide⟩, by intro j g' hj _; omega⟩
  · refine ((hit_test_spec ⟨121, 0⟩ 20 [vguide100]).2.2.2).mpr ?_
    intro j g' hget
    cases j with
    | zero =>
      simp only [List.get?_cons_zero, Option.some.injEq] at hget
      subst hget
      decide
    | succ j' => simp at hget

/-- C1: the drag protocol is click-to-toggle.  When interactive and Idle, a
primary press that hits a guide under the drag radius sets both indices to
the hit index, and a primary press with no hit changes nothing; when
Dragging, a primary press anywhere clears both indices; button-up events
never change the state. -/
theorem click_toggle_protocol (s : CanvasState) (p : Point) (sh : Bool) :
    (s.interactive = true → s.positioning_idx = none →
       (∀ i, findGuideAt s p true = some i →
          (mousePressEvent MouseButton.left sh p s).positioning_idx = some i ∧
          (mousePressEvent MouseButton.left sh p s).hover_idx = some i) ∧
       (findGuideAt s p true = none → mousePressEvent MouseButton.left sh p s = s)) ∧
    (s.interactive = true → s.positioning_idx ≠ none →
       (mousePressEvent MouseButton.left sh p s).positioning_idx = none ∧
       (mousePressEvent MouseButton.left sh p s).hover_idx = none) ∧
    mouseReleaseEvent s = s := by
  refine ⟨?_, ?_, rfl⟩
  · intro hint hpos
    constructor
    · intro i hfind
      simp [mousePressEvent, hint, hpos, hfind]
    · intro hfind
      simp [mousePressEvent, hint, hpos, hfind]
  · intro hint hpos
    obtain ⟨j, hj⟩ := Option.ne_none_iff_exists'.mp hpos
    cases hfind : findGuideAt s p true with
    | none => simp [mousePressEvent, hint, hj, hfind]
    | some i => simp [mousePressEvent, hint, hj, hfind]

theorem removeGuideAt_invalid_eq (index : Int) (s : CanvasState)
    (h : ¬(0 ≤ index ∧ index < (s.guides.length : Int))) :
    removeGuideAt index s = s := by
  rw [removeGuideAt, if_neg h]

theorem removeGuideAt_valid_eq (i : Nat) (s : CanvasState) (h : i < s.guides.length) :
    removeGuideAt (i : Int) s =
      { s with guides := s.guides.eraseIdx i,
               positioning_idx := adjustIdx s.positioning_idx i,
               hover_idx := adjustIdx s.hover_idx i } := by
  have hg : 0 ≤ (i : Int) ∧ (i : Int) < (s.guides.length : Int) := by
    constructor
    · exact Int.natCast_nonneg i
    · exact_mod_cast h
  rw [removeGuideAt, if_pos hg]
  simp

theorem get?_set_self (l : List Guide) (i : Nat) (a : Guide) (h : i < l.length) :
    (l.set i a).get? i = some a := by
  induction l generalizing i with
  | nil => simp at h
  | cons b l ih =>
    cases i with
    | zero => rfl
    | succ j => simpa using ih j (by simpa using h)

theorem removeGuideAt_valid_eq_int (index : Int) (s : CanvasState)
    (hg : 0 ≤ index ∧ index < (s.guides.length : Int)) :
    removeGuideAt index s =
      { s with guides := s.guides.eraseIdx index.toNat,
               positioning_idx := adjustIdx s.positioning_idx index.toNat,
               hover_idx := adjustIdx s.hover_idx index.toNat } := by
  rw [removeGuideAt, if_pos hg]

theorem findGuideAt_some_lt (s : CanvasState) (p : Point) (b : Bool) (i : Nat)
    (h : findGuideAt s p b = some i) : i < s.guides.length :=
  findGuideAtList_some_lt p _ s.guides i h

theorem idxOk_adjustIdx (o : Option Nat) (n removed : Nat)
    (ho : idxOk o n) (hr : removed < n) :
    idxOk (adjustIdx o removed) (n - 1) := by
  intro k hk
  cases o with
  | none => simp [adjustIdx] at hk
  | some m =>
    have hm : m < n := ho m rfl
    simp only [adjustIdx] at hk
    by_cases h1 : m = removed
    · rw [if_pos h1] at hk; cases hk
    · rw [if_neg h1] at hk
      by_cases h2 : m > removed
      · rw [if_pos h2] at hk
        injection hk with hk2
        omega
      · rw [if_neg h2] at hk
        injection hk with hk2
        omega

theorem adjustIdx_none_of_none (removed : Nat) : adjustIdx none removed = none := rfl

theorem mousePressEvent_noninteractive (b : MouseButton) (sh : Bool) (p : Point)
    (s : CanvasState) (h : s.interactive = false) : mousePressEvent b sh p s = s := by
  simp [mousePressEvent, h]

theorem mouseMoveEvent_noninteractive (w ht : Int) (p : Point)
    (s : CanvasState) (h : s.interactive = false) : mouseMoveEvent w ht p s = s := by
  simp [mouseMoveEvent, h]

theorem leaveEvent_noninteractive (s : CanvasState) (h : s.interactive = false) :
    leaveEvent s = s := by
  simp [leaveEvent, h]

theorem interactive_eq_false_of_ne (s : CanvasState) (h : ¬ s.interactive = true) :
    s.interactive = false := by
  cases hq : s.interactive
  · rfl
  · exact absurd hq h

/-- Outcome analysis of `mousePressEvent`: identity, drag start, drag
finish, guarded removal, or guide addition. -/
theorem mousePressEvent_cases (b : MouseButton) (sh : Bool) (p : Point) (s : CanvasState) :
    mousePressEvent b sh p s = s ∨
    (s.interactive = true ∧ s.positioning_idx = none ∧
       ∃ i, findGuideAt s p true = some i ∧
         mousePressEvent b sh p s = { s with positioning_idx := some i, hover_idx := some i }) ∨
    (s.interactive = true ∧
       mousePressEvent b sh p s = { s with positioning_idx := none, hover_idx := none }) ∨
    (s.interactive = true ∧
       ∃ i, findGuideAt s p true = some i ∧
         mousePressEvent b sh p s =
           removeGuideAt (i : Int)
             (if s.positioning_idx = some i then { s with positioning_idx := none } else s)) ∨
    (s.interactive = true ∧
       ∃ g, mousePressEvent b sh p s = addGuide g s) := by
  by_cases hint : s.interactive = true
  · cases b with
    | left =>
      cases hpos : s.positioning_idx with
      | none =>
        cases hfind : findGuideAt s p true with
        | none =>
          left
          simp [mousePressEvent, hint, hpos, hfind]
        | some i =>
          right; left
          exact ⟨hint, rfl, i, rfl, by simp [mousePressEvent, hint, hpos, hfind]⟩
      | some j =>
        right; right; left
        exact ⟨hint, by simp [mousePressEvent, hint, hpos]⟩
    | right =>
      cases hfind : findGuideAt s p true with
      | none =>
        left
        simp [mousePressEvent, hint, hfind]
      | some i =>
        right; right; right; left
        exact ⟨hint, i, rfl, by simp [mousePressEvent, hint, hfind]⟩
    | middle =>
      right; right; right; right
      refine ⟨hint, ?_⟩
      cases sh
      · exact ⟨{ orientation := Orientation.v, pos := p.x },
               by simp [mousePressEvent, hint]⟩
      · exact ⟨{ orientation := Orientation.h, pos := p.y },
               by simp [mousePressEvent, hint]⟩
  · left
    exact mousePressEvent_noninteractive b sh p s (interactive_eq_false_of_ne s hint)

/-- Outcome analysis of `mouseMoveEvent`: identity, drag reposition,
defensive abort, or hover recompute. -/
theorem mouseMoveEvent_cases (w ht : Int) (p : Point) (s : CanvasState) :
    mouseMoveEvent w ht p s = s ∨
    (s.interactive = true ∧
       ∃ i g, s.positioning_idx = some i ∧ s.guides.get? i = some g ∧
         mouseMoveEvent w ht p s =
           { s with guides := s.guides.set i { g with pos := dragTarget w ht p g } }) ∨
    (s.interactive = true ∧
       mouseMoveEvent w ht p s = { s with positioning_idx := none, hover_idx := none }) ∨
    (s.interactive = true ∧ s.positioning_idx = none ∧
       mouseMoveEvent w ht p s = { s with hover_idx := findGuideAt s p false }) := by
  by_cases hint : s.interactive = true
  · cases hpos : s.positioning_idx with
    | some i =>
      cases hget : s.guides.get? i with
      | some g =>
        right; left
        refine ⟨hint, i, g, rfl, hget, ?_⟩
        have hget' : s.guides[i]? = some g := by
          rw [← List.get?_eq_getElem?]
          exact hget
        simp [mouseMoveEvent, hint, hpos, hget']
      | none =>
        right; right; left
        refine ⟨hint, ?_⟩
        have hget' : s.guides[i]? = none := by
          rw [← List.get?_eq_getElem?]
          exact hget
        simp [mouseMoveEvent, hint, hpos, hget']
    | none =>
      by_cases hne : findGuideAt s p false ≠ s.hover_idx
      · right; right; right
        exact ⟨hint, rfl, by simp [mouseMoveEvent, hint, hpos, hne]⟩
      · rw [not_not] at hne
        left
        simp [mouseMoveEvent, hint, hpos, hne]
  · left
    exact mouseMoveEvent_noninteractive w ht p s (interactive_eq_false_of_ne s hint)

/-- Outcome analysis of `leaveEvent`. -/
theorem leaveEvent_cases (s : CanvasState) :
    leaveEvent s = s ∨
    (s.positioning_idx = none ∧ leaveEvent s = { s with hover_idx := none }) := by
  rw [leaveEvent]
  by_cases h1 : (!s.interactive) = true
  · rw [if_pos h1]; exact Or.inl rfl
  · rw [if_neg h1]
    by_cases h2 : s.positioning_idx = none ∧ s.hover_idx ≠ none
    · rw [if_pos h2]; exact Or.inr ⟨h2.1, rfl⟩
    · rw [if_neg h2]; exact Or.inl rfl

/-- Outcome analysis of `clearGuides`. -/
theorem clearGuides_cases (s : CanvasState) :
    clearGuides s = s ∨
    clearGuides s = { s with guides := [], positioning_idx := none, hover_idx := none } := by
  rw [clearGuides]
  by_cases h1 : s.guides.isEmpty = true
  · rw [if_pos h1]; exact Or.inl rfl
  · rw [if_neg h1]; exact Or.inr rfl

theorem noDangling_removeGuideAt (index : Int) (s : CanvasState)
    (hnd : noDangling s) : noDangling (removeGuideAt index s) := by
  by_cases hg : 0 ≤ index ∧ index < (s.guides.length : Int)
  · have hi : index.toNat < s.guides.length := by omega
    rw [removeGuideAt_valid_eq_int index s hg]
    have hlen : (s.guides.eraseIdx index.toNat).length = s.guides.length - 1 := by
      rw [List.length_eraseIdx, if_pos hi]
    constructor
    · intro k hk
      show k < (s.guides.eraseIdx index.toNat).length
      rw [hlen]
      exact idxOk_adjustIdx s.positioning_idx s.guides.length index.toNat hnd.1 hi k hk
    · intro k hk
      show k < (s.guides.eraseIdx index.toNat).length
      rw [hlen]
      exact idxOk_adjustIdx s.hover_idx s.guides.length index.toNat hnd.2 hi k hk
  · rw [removeGuideAt_invalid_eq index s hg]
    exact hnd

theorem interOk_removeGuideAt (index : Int) (s : CanvasState)
    (hio : interOk s) : interOk (removeGuideAt index s) := by
  by_cases hg : 0 ≤ index ∧ index < (s.guides.length : Int)
  · rw [removeGuideAt_valid_eq_int index s hg]
    intro hf
    obtain ⟨h1, h2⟩ := hio hf
    constructor
    · show adjustIdx s.positioning_idx index.toNat = none
      rw [h1, adjustIdx_none_of_none]
    · show adjustIdx s.hover_idx index.toNat = none
      rw [h2, adjustIdx_none_of_none]
  · rw [removeGuideAt_invalid_eq index s hg]
    exact hio

theorem linked_removeGuideAt (index : Int) (s : CanvasState)
    (hl : linked s) : linked (removeGuideAt index s) := by
  by_cases hg : 0 ≤ index ∧ index < (s.guides.length : Int)
  · rw [removeGuideAt_valid_eq_int index s hg]
    intro k hk
    replace hk : adjustIdx s.positioning_idx index.toNat = some k := hk
    show adjustIdx s.hover_idx index.toNat = some k
    cases hp : s.positioning_idx with
    | none =>
      rw [hp] at hk
      exact Option.noConfusion hk
    | some m =>
      rw [hl m hp, ← hp]
      exact hk
  · rw [removeGuideAt_invalid_eq index s hg]
    exact hl

theorem noDangling_addGuide (g : Guide) (s : CanvasState) (hnd : noDangling s) :
    noDangling (addGuide g s) := by
  constructor
  · intro k hk
    have hlt := hnd.1 k hk
    show k < (s.guides ++ [g]).length
    simp only [List.length_append, List.length_cons, List.length_nil]
    omega
  · intro k hk
    have hlt := hnd.2 k hk
    show k < (s.guides ++ [g]).length
    simp only [List.length_append, List.length_cons, List.length_nil]
    omega

theorem noDangling_applyOp (op : Op) (s : CanvasState) (hnd : noDangling s) :
    noDangling (applyOp op s) := by
  cases op with
  | add g => exact noDangling_addGuide g s hnd
  | remove index => exact noDangling_removeGuideAt index s hnd
  | clear =>
    rcases clearGuides_cases s with hc | hc
    · show noDangling (clearGuides s)
      rw [hc]; exact hnd
    · show noDangling (clearGuides s)
      rw [hc]
      exact ⟨fun k hk => Option.noConfusion hk, fun k hk => Option.noConfusion hk⟩
  | setAll gs =>
    exact ⟨fun k hk => Option.noConfusion hk, fun k hk => Option.noConfusion hk⟩
  | setInter b =>
    cases b
    · exact ⟨fun k hk => Option.noConfusion hk, fun k hk => Option.noConfusion hk⟩
    · exact hnd
  | press b sh p =>
    rcases mousePressEvent_cases b sh p s with
      hc | ⟨-, -, i, hfind, hc⟩ | ⟨-, hc⟩ | ⟨-, i, hfind, hc⟩ | ⟨-, g, hc⟩
    · show noDangling (mousePressEvent b sh p s)
      rw [hc]; exact hnd
    · show noDangling (mousePressEvent b sh p s)
      rw [hc]
      have hlt := findGuideAt_some_lt s p true i hfind
      constructor
      · intro k hk
        have hk' : some i = some k := hk
        injection hk' with hik
        show k < s.guides.length
        omega
      · intro k hk
        have hk' : some i = some k := hk
        injection hk' with hik
        show k < s.guides.length
        omega
    · show noDangling (mousePressEvent b sh p s)
      rw [hc]
      exact ⟨fun k hk => Option.noConfusion hk, fun k hk => Option.noConfusion hk⟩
    · show noDangling (mousePressEvent b sh p s)
      rw [hc]
      apply noDangling_removeGuideAt
      by_cases hp : s.positioning_idx = some i
      · rw [if_pos hp]
        exact ⟨fun k hk => Option.noConfusion hk, hnd.2⟩
      · rw [if_neg hp]
        exact hnd
    · show noDangling (mousePressEvent b sh p s)
      rw [hc]
      exact noDangling_addGuide g s hnd
  | move w ht p =>
    rcases mouseMoveEvent_cases w ht p s with
      hc | ⟨-, i, g, hpos, hget, hc⟩ | ⟨-, hc⟩ | ⟨-, hpos, hc⟩
    · show noDangling (mouseMoveEvent w ht p s)
      rw [hc]; exact hnd
    · show noDangling (mouseMoveEvent w ht p s)
      rw [hc]
      constructor
      · intro k hk
        have hlt := hnd.1 k hk
        show k < (s.guides.set i { g with pos := dragTarget w ht p g }).length
        rw [List.length_set]
        exact hlt
      · intro k hk
        have hlt := hnd.2 k hk
        show k < (s.guides.set i { g with pos := dragTarget w ht p g }).length
        rw [List.length_set]
        exact hlt
    · show noDangling (mouseMoveEvent w ht p s)
      rw [hc]
      exact ⟨fun k hk => Option.noConfusion hk, fun k hk => Option.noConfusion hk⟩
    · show noDangling (mouseMoveEvent w ht p s)
      rw [hc]
      constructor
      · intro k hk
        exact hnd.1 k hk
      · intro k hk
        have hk' : findGuideAt s p false = some k := hk
        exact findGuideAt_some_lt s p false k hk'
  | release => exact hnd
  | leave =>
    rcases leaveEvent_cases s with hc | ⟨-, hc⟩
    · show noDangling (leaveEvent s)
      rw [hc]; exact hnd
    · show noDangling (leaveEvent s)
      rw [hc]
      exact ⟨hnd.1, fun k hk => Option.noConfusion hk⟩

theorem interOk_addGuide (g : Guide) (s : CanvasState) (hio : interOk s) :
    interOk (addGuide g s) := fun hf => hio hf

theorem interOk_applyOp (op : Op) (s : CanvasState) (hio : interOk s) :
    interOk (applyOp op s) := by
  cases op with
  | add g => exact interOk_addGuide g s hio
  | remove index => exact interOk_removeGuideAt index s hio
  | clear =>
    rcases clearGuides_cases s with hc | hc
    · show interOk (clearGuides s)
      rw [hc]; exact hio
    · show interOk (clearGuides s)
      rw [hc]; exact fun _ => ⟨rfl, rfl⟩
  | setAll gs => exact fun _ => ⟨rfl, rfl⟩
  | setInter b =>
    cases b
    · exact fun _ => ⟨rfl, rfl⟩
    · intro hf
      have hf' : true = false := hf
      exact Bool.noConfusion hf'
  | press b sh p =>
    rcases mousePressEvent_cases b sh p s with
      hc | ⟨hint, -, i, -, hc⟩ | ⟨-, hc⟩ | ⟨-, i, -, hc⟩ | ⟨-, g, hc⟩
    · show interOk (mousePressEvent b sh p s)
      rw [hc]; exact hio
    · show interOk (mousePressEvent b sh p s)
      rw [hc]
      intro hf
      have hf' : s.interactive = false := hf
      rw [hint] at hf'
      exact Bool.noConfusion hf'
    · show interOk (mousePressEvent b sh p s)
      rw [hc]; exact fun _ => ⟨rfl, rfl⟩
    · show interOk (mousePressEvent b sh p s)
      rw [hc]
      apply interOk_removeGuideAt
      by_cases hp : s.positioning_idx = some i
      · rw [if_pos hp]
        intro hf
        exact ⟨rfl, (hio hf).2⟩
      · rw [if_neg hp]
        exact hio
    · show interOk (mousePressEvent b sh p s)
      rw [hc]
      exact interOk_addGuide g s hio
  | move w ht p =>
    rcases mouseMoveEvent_cases w ht p s with
      hc | ⟨-, i, g, hpos, -, hc⟩ | ⟨-, hc⟩ | ⟨hint, -, hc⟩
    · show interOk (mouseMoveEvent w ht p s)
      rw [hc]; exact hio
    · show interOk (mouseMoveEvent w ht p s)
      rw [hc]
      intro hf
      exact hio hf
    · show interOk (mouseMoveEvent w ht p s)
      rw [hc]; exact fun _ => ⟨rfl, rfl⟩
    · show interOk (mouseMoveEvent w ht p s)
      rw [hc]
      intro hf
      have hf' : s.interactive = false := hf
      rw [hint] at hf'
      exact Bool.noConfusion hf'
  | release => exact hio
  | leave =>
    rcases leaveEvent_cases s with hc | ⟨-, hc⟩
    · show interOk (leaveEvent s)
      rw [hc]; exact hio
    · show interOk (leaveEvent s)
      rw [hc]
      intro hf
      exact ⟨(hio hf).1, rfl⟩

theorem linked_addGuide (g : Guide) (s : CanvasState) (hl : linked s) :
    linked (addGuide g s) := fun i hi => hl i hi

theorem linked_applyOp (op : Op) (s : CanvasState) (hl : linked s) :
    linked (applyOp op s) := by
  cases op with
  | add g => exact linked_addGuide g s hl
  | remove index => exact linked_removeGuideAt index s hl
  | clear =>
    rcases clearGuides_cases s with hc | hc
    · show linked (clearGuides s)
      rw [hc]; exact hl
    · show linked (clearGuides s)
      rw [hc]
      exact fun k hk => Option.noConfusion hk
  | setAll gs => exact fun k hk => Option.noConfusion hk
  | setInter b =>
    cases b
    · exact fun k hk => Option.noConfusion hk
    · exact fun k hk => hl k hk
  | press b sh p =>
    rcases mousePressEvent_cases b sh p s with
      hc | ⟨-, -, i, -, hc⟩ | ⟨-, hc⟩ | ⟨-, i, -, hc⟩ | ⟨-, g, hc⟩
    · show linked (mousePressEvent b sh p s)
      rw [hc]; exact hl
    · show linked (mousePressEvent b sh p s)
      rw [hc]
      intro k hk
      have hk' : some i = some k := hk
      exact hk'
    · show linked (mousePressEvent b sh p s)
      rw [hc]
      exact fun k hk => Option.noConfusion hk
    · show linked (mousePressEvent b sh p s)
      rw [hc]
      apply linked_removeGuideAt
      by_cases hp : s.positioning_idx = some i
      · rw [if_pos hp]
        exact fun k hk => Option.noConfusion hk
      · rw [if_neg hp]
        exact hl
    · show linked (mousePressEvent b sh p s)
      rw [hc]
      exact linked_addGuide g s hl
  | move w ht p =>
    rcases mouseMoveEvent_cases w ht p s with
      hc | ⟨-, i, g, -, -, hc⟩ | ⟨-, hc⟩ | ⟨-, hpos, hc⟩
    · show linked (mouseMoveEvent w ht p s)
      rw [hc]; exact hl
    · show linked (mouseMoveEvent w ht p s)
      rw [hc]
      exact fun k hk => hl k hk
    · show linked (mouseMoveEvent w ht p s)
      rw [hc]
      exact fun k hk => Option.noConfusion hk
    · show linked (mouseMoveEvent w ht p s)
      rw [hc]
      intro k hk
      have hk' : s.positioning_idx = some k := hk
      rw [hpos] at hk'
      exact Option.noConfusion hk'
  | release => exact hl
  | leave =>
    rcases leaveEvent_cases s with hc | ⟨hpos, hc⟩
    · show linked (leaveEvent s)
      rw [hc]; exact hl
    · show linked (leaveEvent s)
      rw [hc]
      intro k hk
      have hk' : s.positioning_idx = some k := hk
      rw [hpos] at hk'
      exact Option.noConfusion hk'

theorem noDangling_applyOps (ops : List Op) (s : CanvasState) (h : noDangling s) :
    noDangling (applyOps ops s) := by
  induction ops generalizing s with
  | nil => exact h
  | cons op ops ih => exact ih (applyOp op s) (noDangling_applyOp op s h)

theorem interOk_applyOps (ops : List Op) (s : CanvasState) (h : interOk s) :
    interOk (applyOps ops s) := by
  induction ops generalizing s with
  | nil => exact h
  | cons op ops ih => exact ih (applyOp op s) (interOk_applyOp op s h)

theorem linked_applyOps (ops : List Op) (s : CanvasState) (h : linked s) :
    linked (applyOps ops s) := by
  induction ops generalizing s with
  | nil => exact h
  | cons op ops ih => exact ih (applyOp op s) (linked_applyOp op s h)

/-- C4: after every sequence of operations starting from the initial state
— adds, removals at any integer index, clears, wholesale replacement,
interactivity toggles and all pointer events — each of the hover and
positioning indices is either `None` or a valid index (0 ≤ idx < length)
into the guide collection. -/
theorem no_dangling_invariant (ops : List Op) :
    noDangling (applyOps ops initState) :=
  noDangling_applyOps ops initState
    ⟨fun _ hk => Option.noConfusion hk, fun _ hk => Option.noConfusion hk⟩

/-- Witness for C4: after enabling interactivity, middle-clicking to add a
guide at x = 100 and left-clicking at x = 105 to start dragging it, the
positioning index `some 0` is indeed within the collection bounds. -/
theorem no_dangling_invariant_witness :
    0 < (applyOps [Op.setInter true, Op.press MouseButton.middle false ⟨100, 0⟩,
                   Op.press MouseButton.left false ⟨105, 0⟩] initState).guides.length := by
  exact (no_dangling_invariant [Op.setInter true, Op.press MouseButton.middle false ⟨100, 0⟩,
            Op.press MouseButton.left false ⟨105, 0⟩]).1 0 (by decide)

/-- C5: disabling interactive mode always clears both interaction indices
regardless of prior state; while the flag is false every pointer event
leaves the state untouched (so neither index is ever set); and along every
operation sequence from the initial state, a non-interactive state has
both indices `None`. -/
theorem noninteractive_invariant :
    (∀ s, (setInteractive false s).hover_idx = none ∧
          (setInteractive false s).positioning_idx = none) ∧
    (∀ s, s.interactive = false →
       (∀ b sh p, mousePressEvent b sh p s = s) ∧
       (∀ w ht p, mouseMoveEvent w ht p s = s) ∧
       mouseReleaseEvent s = s ∧ leaveEvent s = s) ∧
    (∀ ops, (applyOps ops initState).interactive = false →
       (applyOps ops initState).hover_idx = none ∧
       (applyOps ops initState).positioning_idx = none) := by
  refine ⟨fun s => ⟨rfl, rfl⟩, ?_, ?_⟩
  · intro s hf
    exact ⟨fun b sh p => mousePressEvent_noninteractive b sh p s hf,
           fun w ht p => mouseMoveEvent_noninteractive w ht p s hf,
           rfl,
           leaveEvent_noninteractive s hf⟩
  · intro ops hf
    have h := interOk_applyOps ops initState (fun _ => ⟨rfl, rfl⟩) hf
    exact ⟨h.2, h.1⟩

/-- Witness for C5: disabling interactivity on a dragging state clears
both indices; pointer events on the (non-interactive) initial state are
identities; the empty sequence from the initial state has both indices
`None`. -/
theorem noninteractive_invariant_witness :
    ((setInteractive false sampleDragging).hover_idx = none ∧
     (setInteractive false sampleDragging).positioning_idx = none) ∧
    mousePressEvent MouseButton.left false ⟨105, 0⟩ initState = initState ∧
    (applyOps [] initState).hover_idx = none := by
  refine ⟨noninteractive_invariant.1 sampleDragging, ?_, ?_⟩
  · exact (noninteractive_invariant.2.1 initState rfl).1 MouseButton.left false ⟨105, 0⟩
  · exact (noninteractive_invariant.2.2 [] rfl).1

/-- C10: whenever the positioning index is set, the hover index equals it;
every operation preserves this linkage, and it holds in every state
reachable from the initial state. -/
theorem drag_hover_linked :
    (∀ op s, linked s → linked (applyOp op s)) ∧
    (∀ ops, linked (applyOps ops initState)) :=
  ⟨fun op s hl => linked_applyOp op s hl,
   fun ops => linked_applyOps ops initState (fun _ hi => Option.noConfusion hi)⟩

/-- Witness for C10: starting a drag on the sample idle state yields
hover index `some 0` because the positioning index became `some 0`. -/
theorem drag_hover_linked_witness :
    (applyOp (Op.press MouseButton.left false ⟨105, 0⟩) sampleIdle).hover_idx = some 0 := by
  have hl := drag_hover_linked.1 (Op.press MouseButton.left false ⟨105, 0⟩) sampleIdle
    (fun _ hi => Option.noConfusion hi)
  exact hl 0 (by decide)

/-- C2 counterexample: `removeGuideAt 0` on the empty canvas (index 0 is
invalid there) does not fail with `IndexOutOfRange`; it returns
successfully with the state unchanged. -/
theorem removeAt_invalid_counterexample :
    removeGuideAtE 0 initState = Except.ok initState ∧
    removeGuideAtE 0 initState ≠ Except.error GuideError.indexOutOfRange := by
  constructor
  · rfl
  · intro hcontra
    simp only [removeGuideAtE] at hcontra
    exact Except.noConfusion hcontra

/-- C2 amended: for every invalid index (negative, or at least the
collection length) the remove-at operation is a silent no-op: it returns
successfully with the collection and both interaction indices unchanged,
and no `IndexOutOfRange` error is raised. -/
theorem removeAt_invalid_noop (index : Int) (s : CanvasState)
    (h : index < 0 ∨ (s.guides.length : Int) ≤ index) :
    removeGuideAtE index s = Except.ok s := by
  have hn : ¬(0 ≤ index ∧ index < (s.guides.length : Int)) := by omega
  simp only [removeGuideAtE, removeGuideAt_invalid_eq index s hn]

/-- Witness for the amended C2: index -1 on a one-guide canvas. -/
theorem removeAt_invalid_noop_witness :
    (-1 : Int) < 0 ∧ removeGuideAtE (-1) sampleIdle = Except.ok sampleIdle := by
  exact ⟨by decide, removeAt_invalid_noop (-1) sampleIdle (Or.inl (by decide))⟩

/-- C3: removing the guide at a valid index re-derives both interaction
indices by the same rule applied independently: an index equal to the
removed one is cleared, a greater one is decremented by 1, a smaller or
absent one is unchanged. -/
theorem removeAt_rederives_indices (s : CanvasState) (i : Nat)
    (h : i < s.guides.length) :
    ((s.positioning_idx = some i → (removeGuideAt (i : Int) s).positioning_idx = none) ∧
     (∀ k, s.positioning_idx = some k → i < k →
        (removeGuideAt (i : Int) s).positioning_idx = some (k - 1)) ∧
     (∀ k, s.positioning_idx = some k → k < i →
        (removeGuideAt (i : Int) s).positioning_idx = some k) ∧
     (s.positioning_idx = none → (removeGuideAt (i : Int) s).positioning_idx = none)) ∧
    ((s.hover_idx = some i → (removeGuideAt (i : Int) s).hover_idx = none) ∧
     (∀ k, s.hover_idx = some k → i < k →
        (removeGuideAt (i : Int) s).hover_idx = some (k - 1)) ∧
     (∀ k, s.hover_idx = some k → k < i →
        (removeGuideAt (i : Int) s).hover_idx = some k) ∧
     (s.hover_idx = none → (removeGuideAt (i : Int) s).hover_idx = none)) := by
  rw [removeGuideAt_valid_eq i s h]
  refine ⟨⟨?_, ?_, ?_, ?_⟩, ?_, ?_, ?_, ?_⟩
  · intro hp
    show adjustIdx s.positioning_idx i = none
    rw [hp]
    simp [adjustIdx]
  · intro k hp hik
    show adjustIdx s.positioning_idx i = some (k - 1)
    rw [hp]
    simp only [adjustIdx]
    rw [if_neg (by omega), if_pos (by omega)]
  · intro k hp hki
    show adjustIdx s.positioning_idx i = some k
    rw [hp]
    simp only [adjustIdx]
    rw [if_neg (by omega), if_neg (by omega)]
  · intro hp
    show adjustIdx s.positioning_idx i = none
    rw [hp]
    simp [adjustIdx]
  · intro hp
    show adjustIdx s.hover_idx i = none
    rw [hp]
    simp [adjustIdx]
  · intro k hp hik
    show adjustIdx s.hover_idx i = some (k - 1)
    rw [hp]
    simp only [adjustIdx]
    rw [if_neg (by omega), if_pos (by omega)]
  · intro k hp hki
    show adjustIdx s.hover_idx i = some k
    rw [hp]
    simp only [adjustIdx]
    rw [if_neg (by omega), if_neg (by omega)]
  · intro hp
    show adjustIdx s.hover_idx i = none
    rw [hp]
    simp [adjustIdx]

/-- Witness for C3: three guides, hover 0, positioning 2; removing index 1
decrements the positioning index to 1 and leaves the hover index at 0. -/
theorem removeAt_rederives_indices_witness :
    (removeGuideAt 1 sampleThree).positioning_idx = some 1 ∧
    (removeGuideAt 1 sampleThree).hover_idx = some 0 := by
  have h := removeAt_rederives_indices sampleThree 1 (by decide)
  exact ⟨h.1.2.1 2 rfl (by omega), h.2.2.2.1 0 rfl (by omega)⟩

/-- C6: on a pointer move while Dragging with a valid positioning index,
the dragged guide's position becomes the pointer's perpendicular
coordinate clamped by `max(0, min(extent - 1, coord))`, where the extent
is the width for vertical guides and the height for horizontal ones; for
an extent of at least 1 the result lies in `[0, extent-1]`, and a vertical
guide dragged to pointer x = width + 50 lands exactly at width - 1. -/
theorem drag_move_clamps (s : CanvasState) (w h : Int) (p : Point) (i : Nat) (g : Guide)
    (hint : s.interactive = true) (hpos : s.positioning_idx = some i)
    (hget : s.guides.get? i = some g) :
    (mouseMoveEvent w h p s).guides.get? i = some { g with pos := dragTarget w h p g } ∧
    (g.orientation = Orientation.v → 1 ≤ w →
       (0 ≤ dragTarget w h p g ∧ dragTarget w h p g ≤ w - 1) ∧
       (p.x = w + 50 → dragTarget w h p g = w - 1)) ∧
    (g.orientation = Orientation.h → 1 ≤ h →
       (0 ≤ dragTarget w h p g ∧ dragTarget w h p g ≤ h - 1) ∧
       (p.y = h + 50 → dragTarget w h p g = h - 1)) := by
  have hlen : i < s.guides.length := by
    by_contra hcon
    rw [List.get?_eq_none.mpr (by omega)] at hget
    cases hget
  refine ⟨?_, ?_, ?_⟩
  · have hmv : mouseMoveEvent w h p s =
        { s with guides := s.guides.set i { g with pos := dragTarget w h p g } } := by
      have hget' : s.guides[i]? = some g := by
        rw [← List.get?_eq_getElem?]
        exact hget
      rw [mouseMoveEvent]
      simp [hint, hpos, hget']
    rw [hmv]
    exact get?_set_self s.guides i _ hlen
  · intro ho hw
    simp only [dragTarget, ho]
    omega
  · intro ho hh
    simp only [dragTarget, ho]
    omega

/-- Witness for C6: surface 640x480, one vertical guide being dragged,
pointer at x = 690 = 640 + 50: the guide lands at x = 639 = width - 1. -/
theorem drag_move_clamps_witness :
    (mouseMoveEvent 640 480 ⟨690, 0⟩ sampleDragging).guides.get? 0 =
      some { orientation := Orientation.v, pos := 639 } ∧
    dragTarget 640 480 ⟨690, 0⟩ vguide100 = 639 := by
  have h := drag_move_clamps sampleDragging 640 480 ⟨690, 0⟩ 0 vguide100 rfl rfl rfl
  constructor
  · rw [h.1]
    decide
  · have h2 := (h.2.1 rfl (by decide)).2 (by decide)
    omega

/-- C8 counterexample: with ambient defaults blue / thickness 5 / Dashed,
a middle press still appends a guide carrying the dataclass constants
orange (255,140,0,255), thickness 2, Solid — the ambient configuration is
not consulted by the handler. -/
theorem middle_press_ignores_ambient :
    (mousePressEvent MouseButton.middle false ⟨40, 30⟩ sampleIdle).guides =
      [vguide100, { orientation := Orientation.v, pos := 40 }] ∧
    ({ orientation := Orientation.v, pos := 40 } : Guide).color ≠ blueDefaults.color ∧
    ({ orientation := Orientation.v, pos := 40 } : Guide).thickness ≠ blueDefaults.thickness ∧
    ({ orientation := Orientation.v, pos := 40 } : Guide).style_name ≠ blueDefaults.style := by
  refine ⟨rfl, by decide, by decide, by decide⟩

/-- C8 amended: a middle press in interactive mode appends a guide at the
pointer coordinate (horizontal at y when Shift is held, else vertical at
x) whose color, thickness and line style are the hardcoded `Guide`
dataclass defaults (255,140,0,255) / 2 / Solid, independent of the ambient
configuration. -/
theorem middle_press_hardcoded_defaults (s : CanvasState) (sh : Bool) (p : Point)
    (hint : s.interactive = true) :
    mousePressEvent MouseButton.middle sh p s =
      { s with guides := s.guides ++
          [{ orientation := if sh then Orientation.h else Orientation.v,
             pos := if sh then p.y else p.x,
             color := (255, 140, 0, 255),
             thickness := 2,
             style_name := "Solid" }] } := by
  cases sh
  · simp [mousePressEvent, hint, addGuide]
  · simp [mousePressEvent, hint, addGuide]

/-- Witness for the amended C8. -/
theorem middle_press_hardcoded_defaults_witness :
    mousePressEvent MouseButton.middle false ⟨40, 30⟩ sampleIdle =
      { sampleIdle with guides := [vguide100, { orientation := Orientation.v, pos := 40 }] } := by
  rw [middle_press_hardcoded_defaults sampleIdle false ⟨40, 30⟩ rfl]
  decide

/-- C9: loading persisted guides skips each malformed record individually
and keeps every well-formed one in order, and the load itself never
fails: with one well-formed and one malformed record the result is `.ok`
with exactly the well-formed guide. -/
theorem load_skips_malformed (pre post : List PersistedEntry) (e : PersistedEntry) :
    (parseGuideEntry e = none →
       loadGuides (pre ++ e :: post) = loadGuides (pre ++ post)) ∧
    (∀ g, parseGuideEntry e = some g →
       loadGuides (pre ++ e :: post) = loadGuides pre ++ g :: loadGuides post) ∧
    loadGuidesE [wellFormedEntry, malformedEntry] =
      Except.ok [{ orientation := Orientation.v, pos := 120,
                   color := (10, 20, 30, 255), thickness := 3,
                   style_name := "Dashed" }] := by
  refine ⟨?_, ?_, rfl⟩
  · intro hp
    simp [loadGuides, List.filterMap_append, List.filterMap_cons, hp]
  · intro g hp
    simp [loadGuides, List.filterMap_append, List.filterMap_cons, hp]

/-- Witness for C9: dropping the malformed record changes nothing. -/
theorem load_skips_malformed_witness :
    loadGuides ([wellFormedEntry] ++ malformedEntry :: []) =
      loadGuides ([wellFormedEntry] ++ []) := by
  exact (load_skips_malformed [wellFormedEntry] [] malformedEntry).1 rfl

/-- Witness for C1: one vertical guide at x = 100, drag radius 20.  A
primary press at x = 105 in Idle enters Dragging on index 0; a primary
press at x = 500 while Dragging clears both indices; a release changes
nothing. -/
theorem click_toggle_protocol_witness :
    ((mousePressEvent MouseButton.left false ⟨105, 0⟩ sampleIdle).positioning_idx = some 0 ∧
     (mousePressEvent MouseButton.left false ⟨105, 0⟩ sampleIdle).hover_idx = some 0) ∧
    ((mousePressEvent MouseButton.left false ⟨500, 0⟩ sampleDragging).positioning_idx = none ∧
     (mousePressEvent MouseButton.left false ⟨500, 0⟩ sampleDragging).hover_idx = none) ∧
    mouseReleaseEvent sampleDragging = sampleDragging := by
  refine ⟨?_, ?_, (click_toggle_protocol sampleDragging ⟨500, 0⟩ false).2.2⟩
  · exact ((click_toggle_protocol sampleIdle ⟨105, 0⟩ false).1 rfl rfl).1 0 (by decide)
  · exact (click_toggle_protocol sampleDragging ⟨500, 0⟩ false).2.1 rfl (by decide)

end Inkguiding
